import Mathlib

/-!
Verification of the edge-proxy request pipeline in `src/worker.ts`
(Cloudflare Worker proxying pixel-art submissions to a Supabase RPC).

The worker is embedded shallowly: JavaScript values appearing in the parsed
request body are modelled by `JVal`; the handler `fetch` becomes the pure
function `workerFetch`, taking the external rate-limiter decision and the
upstream outcome as oracles and returning, next to the response, a `Trace`
recording which pipeline stages ran (which external calls were made).
-/

namespace PixelProxy

set_option maxRecDepth 16384

/-- A JavaScript value as it can appear in a parsed JSON body (plus
`undefined` for absent fields). -/
inductive JVal where
  | str (s : String)
  | num (n : Int)
  | boolean (b : Bool)
  | nul
  | undef
  | arr (xs : List JVal)

/-- `typeof v === "string"`. -/
def JVal.isStringJ : JVal → Bool
  | .str _ => true
  | _ => false

/-- `v === undefined`. -/
def JVal.isUndefined : JVal → Bool
  | .undef => true
  | _ => false

/-- `Array.isArray(v)`. -/
def JVal.isArrayJ : JVal → Bool
  | .arr _ => true
  | _ => false

/-- JavaScript truthiness of a value. -/
def JVal.truthy : JVal → Bool
  | .str s => !(s == "")
  | .num n => !(n == 0)
  | .boolean b => b
  | .nul => false
  | .undef => false
  | .arr _ => true

/-- The string payload of a `JVal.str`; unused on other constructors. -/
def JVal.strVal : JVal → String
  | .str s => s
  | _ => ""

/-- The element list of a `JVal.arr`; unused on other constructors. -/
def JVal.arrVal : JVal → List JVal
  | .arr xs => xs
  | _ => []

/-- `a` is a leading segment of `b` (helper for substring search). -/
def leadMatch : List Char → List Char → Bool
  | [], _ => true
  | _ :: _, [] => false
  | a :: as, b :: bs => a == b && leadMatch as bs

/-- `needle` occurs contiguously inside `hay` (helper for substring search). -/
def subMatch (needle : List Char) : List Char → Bool
  | [] => leadMatch needle []
  | b :: bs => leadMatch needle (b :: bs) || subMatch needle bs

/-- JavaScript `hay.includes(needle)` substring containment. -/
def jsIncludes (hay needle : String) : Bool :=
  subMatch needle.data hay.data

/-- Whitespace as trimmed by JavaScript `String.prototype.trim` (the
code points relevant to this code base). -/
def isJsSpace (c : Char) : Bool :=
  c == ' ' || c == '\t' || c == '\n' || c == '\r'
    || c == '\x0b' || c == '\x0c' || c == ' ' || c == '　'

/-- Drop leading JS whitespace from a character list. -/
def dropLeadingSpaces : List Char → List Char
  | [] => []
  | c :: cs => if isJsSpace c then dropLeadingSpaces cs else c :: cs

/-- JavaScript `s.trim()`. -/
def jsTrim (s : String) : String :=
  String.mk (dropLeadingSpaces ((dropLeadingSpaces s.data.reverse).reverse))

/-- Split a character list at every occurrence of the separator. -/
def splitChars (sep : Char) : List Char → List (List Char)
  | [] => [[]]
  | x :: xs =>
    let r := splitChars sep xs
    if x == sep then [] :: r
    else
      match r with
      | [] => [[x]]
      | y :: ys => (x :: y) :: ys

/-- JavaScript `s.split(sep)` for a one-character separator. -/
def jsSplit (sep : Char) (s : String) : List String :=
  (splitChars sep s.data).map String.mk

-- 入力制限 (input limits, from `worker.ts`)
def MAX_TITLE_LENGTH : Nat := 5
def MAX_PIXELS_LENGTH : Nat := 16

/-- The embedded moderation CSV `NG_WORDS_CSV` from `worker.ts`, verbatim. -/
def NG_WORDS_CSV : String :=
"word
しね
死ね
殺す
ころす
コロス
自殺
じさつ
殺害
さつがい
暴力
ぼうりょく
テロ
てろ
あほ
阿呆
アホ
ばか
馬鹿
バカ
くず
クズ
ゴミ
ごみ
ゴミクズ
きもい
キモい
ブス
ぶす
醜女
うざい
ウザい
消えろ
きえろ
ガイジ
害児
障がい
障害
えろ
エロ
変態
へんたい
せっくす
セックス
性行為
ヤリたい
ちんこ
ちんちん
陰茎
まんこ
女性器
おっぱい
巨乳
貧乳
クリトリス
精子
せいし
射精
自慰
オナニー
ソープ
風俗
ふうぞく
援交
援助交際
ロリ
ペド
近親相姦
うんこ
うんち
糞
くそ
クソ
しっこ
尿
麻薬
覚醒剤
大麻
fuck
fck
fuk
shit
s hit
bitch
bich
asshole
ass hole
dick
cock
pussy
cunt
sex
sexy
kill
die
death
suicide
nigger
nigga
faggot
fag
whore
slut
rape
hitler
nazi
キチガイ
きちがい
気違い
屑
カス
かす
老害
害悪
デブ
でぶ
醜い
障害者
障がい者
カタワ
かたわ
オナニー
マスターベーション
マンコ
ペニス
ヴァギナ
アナル
肛門
陰毛
売春
パパ活
セフレ
ショタ
スカトロ
獣姦
強姦
輪姦
痴漢
盗撮
淫乱
ヘルス
ピンサロ
オナホ
バイブ
土人
シナ
チョン
ニガー
ジャップ
ホモ
レズ
オカマ
おかま
コカイン
ヘロイン
自決
硫化水素
練炭
爆破
爆弾
SEX
マンコ
チンコ
ちんこ
クリトリス
風俗
援交
レイプ
強姦
輪姦
エロ
淫乱
"

/-- `parseNgWordsCsv` from `worker.ts`: drop the header line, trim each
remaining line, drop blank lines. -/
def parseNgWordsCsv (csv : String) : List String :=
  let lines := jsSplit '\n' (jsTrim csv)
  ((lines.drop 1).map jsTrim).filter (fun s => !(s == ""))

/-- The module-level moderation word list `NG_WORDS`. -/
def NG_WORDS : List String := parseNgWordsCsv NG_WORDS_CSV

/-- A parsed request body `{ title?, pixels? }`; absent fields are
`JVal.undef`. -/
structure JBody where
  title : JVal
  pixels : JVal

/-- The result record of `validateInput`. -/
structure ValidationResult where
  valid : Bool
  error : Option String
  deriving DecidableEq, Repr

/-- Character class of the color regex body `[0-9a-fA-F]`. -/
def isHexDigitJ (c : Char) : Bool :=
  ('0' ≤ c && c ≤ '9') || ('a' ≤ c && c ≤ 'f') || ('A' ≤ c && c ≤ 'F')

/-- The test `/^#[0-9a-fA-F]\x7b6\x7d$/.test(s)` from `worker.ts`. -/
def colorRegexTest (s : String) : Bool :=
  match s.data with
  | '#' :: rest => rest.length == 6 && rest.all isHexDigitJ
  | _ => false

/-- `validateInput` from `worker.ts`: the guards in source order,
first failure wins. -/
def validateInput (body : JBody) : ValidationResult :=
  let title := body.title
  let pixels := body.pixels
  -- タイトル検証
  if !title.isUndefined && !title.isStringJ then
    { valid := false, error := some "title must be a string" }
  else if title.truthy && title.strVal.length > MAX_TITLE_LENGTH then
    { valid := false, error := some ("title max " ++ toString MAX_TITLE_LENGTH ++ " chars") }
  -- NGワードチェック
  else if title.truthy && NG_WORDS.any (fun ng => jsIncludes title.strVal ng) then
    { valid := false, error := some "inappropriate title" }
  -- ピクセル検証
  else if !pixels.isArrayJ then
    { valid := false, error := some "pixels must be an array" }
  else if !(pixels.arrVal.length == MAX_PIXELS_LENGTH) then
    { valid := false, error := some ("pixels must have " ++ toString MAX_PIXELS_LENGTH ++ " items") }
  else if pixels.arrVal.any (fun p => !(p.isStringJ && colorRegexTest p.strVal)) then
    { valid := false, error := some "invalid pixel color format" }
  else
    { valid := true, error := none }

/-- The four CORS headers produced by `corsHeaders` in `worker.ts`. -/
structure CorsHeaders where
  allowOrigin : String    -- Access-Control-Allow-Origin
  allowMethods : String   -- Access-Control-Allow-Methods
  allowHeaders : String   -- Access-Control-Allow-Headers
  maxAge : String         -- Access-Control-Max-Age
  deriving DecidableEq, Repr

/-- `corsHeaders` from `worker.ts`. -/
def corsHeaders (origin : String) (allowedOrigins : List String) : CorsHeaders :=
  let isAllowed := allowedOrigins.any (fun o => o == origin || o == "*")
  { allowOrigin := if isAllowed then origin else ""
    allowMethods := "POST, OPTIONS"
    allowHeaders := "Content-Type"
    maxAge := "86400" }

/-- Headers attached to a worker response: the CORS block plus an optional
`Content-Type` added by spreading. -/
structure RespHeaders where
  cors : CorsHeaders
  contentType : Option String
  deriving DecidableEq, Repr

/-- A worker `Response`: status, optional body text, headers. -/
structure WResponse where
  status : Nat
  body : Option String
  headers : RespHeaders
  deriving DecidableEq, Repr

/-- `JSON.stringify(\x7b error \x7d)` for the plain error messages used by
the worker (none contains a character JSON would escape). -/
def jsonErrorBody (e : String) : String :=
  "\x7b\"error\":\"" ++ e ++ "\"\x7d"

/-- `createErrorResponse` from `worker.ts`. -/
def createErrorResponse (error : String) (status : Nat) (headers : CorsHeaders) : WResponse :=
  { status := status
    body := some (jsonErrorBody error)
    headers := { cors := headers, contentType := some "application/json" } }

/-- The upstream (Supabase RPC) HTTP response as seen by the worker. -/
structure UpstreamResponse where
  status : Nat
  body : String
  deriving DecidableEq, Repr

/-- `Response.ok` of the fetch API: status in 200..299. -/
def UpstreamResponse.ok (r : UpstreamResponse) : Bool :=
  200 ≤ r.status && r.status ≤ 299

/-- The inbound request as the worker reads it: method, URL path, the two
headers it consults, and the body-parse outcome (`none` when
`request.json()` throws). -/
structure WRequest where
  method : String
  pathname : String
  originHeader : Option String
  ipHeader : Option String
  bodyJson : Option JBody

/-- The environment bindings the worker reads. -/
structure WEnv where
  ALLOWED_ORIGINS : Option String
  deriving DecidableEq, Repr

/-- Which pipeline stages ran for a request: the rate-limiter call, the body
parse, the validation, and the upstream RPC call. -/
structure Trace where
  rateLimiterCalled : Bool
  bodyParseRun : Bool
  validationRun : Bool
  upstreamCalled : Bool
  deriving DecidableEq, Repr

/-- JavaScript `s || dflt` on `validation.error`: falls back when the value
is absent or the empty string. -/
def jsOrElse (s : Option String) (dflt : String) : String :=
  match s with
  | some e => if e == "" then dflt else e
  | none => dflt

/-- The allow-list parse at the top of `fetch`:
`(env.ALLOWED_ORIGINS || "").split(",").map(trim).filter(Boolean)`. -/
def parseAllowedOrigins (cfg : Option String) : List String :=
  ((jsSplit ',' (cfg.getD "")).map jsTrim).filter (fun s => !(s == ""))

/-- The worker's `fetch` handler from `worker.ts`, with the rate limiter and
the upstream call supplied as oracles: `rateLimit key` is the decision's
`success` field, `upstream` the outcome `callSupabaseRpc` would have
(`Except.error` for a thrown transport failure). Returns the response
together with the stage trace. -/
def workerFetch (request : WRequest) (env : WEnv) (rateLimit : String → Bool)
    (upstream : Except Unit UpstreamResponse) : WResponse × Trace :=
  let origin := request.originHeader.getD ""
  let ip := request.ipHeader.getD "unknown"
  -- 許可オリジンをパース
  let allowedOrigins := parseAllowedOrigins env.ALLOWED_ORIGINS
  let headers := corsHeaders origin allowedOrigins
  -- CORS プリフライト
  if request.method == "OPTIONS" then
    (⟨204, none, ⟨headers, none⟩⟩, ⟨false, false, false, false⟩)
  -- エンドポイント: POST /exchange のみ
  else if !(request.pathname == "/exchange") || !(request.method == "POST") then
    (createErrorResponse "Not Found" 404 headers, ⟨false, false, false, false⟩)
  -- オリジンチェック
  else if allowedOrigins.length > 0 && !(allowedOrigins.contains origin)
      && !(allowedOrigins.contains "*") then
    (createErrorResponse "Forbidden origin" 403 headers, ⟨false, false, false, false⟩)
  else if !(rateLimit ip) then
    (createErrorResponse "Rate limit exceeded. Try again later." 429 headers,
      ⟨true, false, false, false⟩)
  else
    -- リクエストボディをパース
    match request.bodyJson with
    | none => (createErrorResponse "Invalid JSON" 400 headers, ⟨true, true, false, false⟩)
    | some body =>
      -- 入力バリデーション
      let validation := validateInput body
      if !validation.valid then
        (createErrorResponse (jsOrElse validation.error "Invalid input") 400 headers,
          ⟨true, true, true, false⟩)
      else
        -- Supabase RPC 呼び出し
        match upstream with
        | .error _ =>
          (createErrorResponse "Internal server error" 500 headers, ⟨true, true, true, true⟩)
        | .ok supabaseRes =>
          if !supabaseRes.ok then
            (createErrorResponse "internal error" 500 headers, ⟨true, true, true, true⟩)
          else
            (⟨supabaseRes.status, some supabaseRes.body, ⟨headers, some "application/json"⟩⟩,
              ⟨true, true, true, true⟩)

/-- The origin-enforcement guard does not fire: the parsed allow-list is
empty, or it lists the request origin, or it lists the wildcard. -/
def originCheckPasses (origin : String) (allowedOrigins : List String) : Prop :=
  allowedOrigins = [] ∨ origin ∈ allowedOrigins ∨ "*" ∈ allowedOrigins

/-- The first three `validateInput` guards (the title checks) pass: the
title is absent, empty, or a short string clear of every moderation word. -/
def titleChecksPass (t : JVal) : Prop :=
  t = JVal.undef ∨ t = JVal.str "" ∨
    ∃ s, t = JVal.str s ∧ s.length ≤ MAX_TITLE_LENGTH ∧
      ∀ ng ∈ NG_WORDS, jsIncludes s ng = false

/-- The six rejection reasons `validateInput` can produce. -/
def validationReasons : List String :=
  ["title must be a string", "title max 5 chars", "inappropriate title",
   "pixels must be an array", "pixels must have 16 items",
   "invalid pixel color format"]

/-! ### Pipeline theorems -/

/-- C1: after preflight, route and origin checks pass, a failing
rate-limiter decision for the request's key yields 429 with the
"try again later" message, and the upstream call, the body parse and the
validation never run. -/
theorem rate_limited_rejects_429_before_parse
    (request : WRequest) (env : WEnv) (rateLimit : String → Bool)
    (upstream : Except Unit UpstreamResponse)
    (hm : request.method = "POST") (hp : request.pathname = "/exchange")
    (ho : originCheckPasses (request.originHeader.getD "")
            (parseAllowedOrigins env.ALLOWED_ORIGINS))
    (hr : rateLimit (request.ipHeader.getD "unknown") = false) :
    (workerFetch request env rateLimit upstream).1.status = 429 ∧
    (workerFetch request env rateLimit upstream).1.body
      = some (jsonErrorBody "Rate limit exceeded. Try again later.") ∧
    (workerFetch request env rateLimit upstream).2.upstreamCalled = false ∧
    (workerFetch request env rateLimit upstream).2.bodyParseRun = false ∧
    (workerFetch request env rateLimit upstream).2.validationRun = false := by
  rcases ho with h | h | h <;>
    simp [workerFetch, hm, hp, hr, createErrorResponse, h]

theorem rate_limited_rejects_429_before_parse_witness :
    (workerFetch ⟨"POST", "/exchange", some "https://a.example", some "1.2.3.4",
        some ⟨JVal.undef, JVal.undef⟩⟩
      ⟨some "https://a.example"⟩ (fun _ => false) (.error ())).1.status = 429 := by
  exact (rate_limited_rejects_429_before_parse _ _ _ _ rfl rfl
    (Or.inr (Or.inl (by decide))) rfl).1

/-- C2: a POST /exchange request whose origin is missing from a non-empty
allow-list that also lacks the wildcard is rejected with 403, before the
rate limiter and before the upstream call. -/
theorem disallowed_origin_rejects_403_before_rate_limit
    (request : WRequest) (env : WEnv) (rateLimit : String → Bool)
    (upstream : Except Unit UpstreamResponse)
    (hm : request.method = "POST") (hp : request.pathname = "/exchange")
    (hne : parseAllowedOrigins env.ALLOWED_ORIGINS ≠ [])
    (hno : (request.originHeader.getD "") ∉ parseAllowedOrigins env.ALLOWED_ORIGINS)
    (hnw : "*" ∉ parseAllowedOrigins env.ALLOWED_ORIGINS) :
    (workerFetch request env rateLimit upstream).1.status = 403 ∧
    (workerFetch request env rateLimit upstream).1.body
      = some (jsonErrorBody "Forbidden origin") ∧
    (workerFetch request env rateLimit upstream).2.rateLimiterCalled = false ∧
    (workerFetch request env rateLimit upstream).2.upstreamCalled = false := by
  simp [workerFetch, hm, hp, createErrorResponse, hne, hno, hnw, List.length_pos]

theorem disallowed_origin_rejects_403_before_rate_limit_witness :
    (workerFetch ⟨"POST", "/exchange", some "https://evil.example", none, none⟩
      ⟨some "https://a.example"⟩ (fun _ => true) (.error ())).1.status = 403 := by
  exact (disallowed_origin_rejects_403_before_rate_limit _ _ _ _ rfl rfl
    (by decide) (by decide) (by decide)).1

/-- C7: every OPTIONS request gets a 204 response with no body, carrying the
Origin Policy headers; no stage after the preflight short-circuit runs, and
the Access-Control-Allow-Origin header is the request origin when allowed
and empty otherwise. -/
theorem preflight_204_short_circuit
    (request : WRequest) (env : WEnv) (rateLimit : String → Bool)
    (upstream : Except Unit UpstreamResponse)
    (hm : request.method = "OPTIONS") :
    (workerFetch request env rateLimit upstream).1
      = ⟨204, none, ⟨corsHeaders (request.originHeader.getD "")
          (parseAllowedOrigins env.ALLOWED_ORIGINS), none⟩⟩ ∧
    (workerFetch request env rateLimit upstream).2 = ⟨false, false, false, false⟩ ∧
    (workerFetch request env rateLimit upstream).1.headers.cors.allowOrigin
      = (if (parseAllowedOrigins env.ALLOWED_ORIGINS).any
            (fun o => o == (request.originHeader.getD "") || o == "*")
         then request.originHeader.getD "" else "") := by
  refine ⟨?_, ?_, ?_⟩ <;> simp [workerFetch, hm, corsHeaders]

theorem preflight_204_short_circuit_witness :
    (workerFetch ⟨"OPTIONS", "/exchange", some "https://a.example", none, none⟩
      ⟨some "https://a.example"⟩ (fun _ => false) (.error ())).1
      = ⟨204, none, ⟨⟨"https://a.example", "POST, OPTIONS", "Content-Type", "86400"⟩, none⟩⟩ := by
  have h := (preflight_204_short_circuit
    ⟨"OPTIONS", "/exchange", some "https://a.example", none, none⟩
    ⟨some "https://a.example"⟩ (fun _ => false) (.error ()) rfl).1
  rw [h]; decide

/-- C3: every response the pipeline produces — preflight 204, the 404, 403,
429, 400 and 500 errors, and the 200 passthrough — carries the CORS header
block computed at the start of request handling from the request's Origin
header and the configured allow-list. -/
theorem every_response_carries_origin_policy_headers
    (request : WRequest) (env : WEnv) (rateLimit : String → Bool)
    (upstream : Except Unit UpstreamResponse) :
    (workerFetch request env rateLimit upstream).1.headers.cors
      = corsHeaders (request.originHeader.getD "")
          (parseAllowedOrigins env.ALLOWED_ORIGINS) := by
  simp only [workerFetch, createErrorResponse]
  repeat' split
  all_goals rfl

/-- C4 counterexample: a body whose `pixels` is an array of length 0 ≠ 16
but whose title fails the length check is rejected with the title reason,
not the count-mismatch reason — the claim's "regardless of the title
field's value" does not hold. -/
theorem pixels_count_regardless_of_title_counterexample :
    ([] : List JVal).length ≠ 16 ∧
    (validateInput { title := JVal.str "aaaaaa", pixels := JVal.arr [] }).error
      = some "title max 5 chars" ∧
    (validateInput { title := JVal.str "aaaaaa", pixels := JVal.arr [] }).error
      ≠ some "pixels must have 16 items" := by
  decide

/-- C4 (amended): when the title checks pass, a `pixels` array whose length
differs from 16 is rejected with the count-mismatch reason. -/
theorem pixels_count_mismatch_rejects
    (body : JBody) (pxs : List JVal)
    (ht : titleChecksPass body.title)
    (hp : body.pixels = JVal.arr pxs) (hlen : pxs.length ≠ 16) :
    validateInput body
      = { valid := false, error := some "pixels must have 16 items" } := by
  rcases ht with h | h | ⟨s, h, hle, hng⟩
  · simp [validateInput, h, hp, hlen, JVal.isUndefined, JVal.truthy,
      JVal.isArrayJ, JVal.arrVal, MAX_PIXELS_LENGTH]
    decide
  · simp [validateInput, h, hp, hlen, JVal.isUndefined, JVal.isStringJ,
      JVal.truthy, JVal.isArrayJ, JVal.arrVal, MAX_PIXELS_LENGTH]
    decide
  · have h1 : ¬ (s.length > MAX_TITLE_LENGTH) := by omega
    have h2 : (NG_WORDS.any fun ng => jsIncludes s ng) = false := by
      simp only [List.any_eq_false]
      intro ng hmem
      simp [hng ng hmem]
    simp [validateInput, h, hp, hlen, h1, h2, JVal.isUndefined, JVal.isStringJ,
      JVal.truthy, JVal.strVal, JVal.isArrayJ, JVal.arrVal, MAX_PIXELS_LENGTH]
    decide

theorem pixels_count_mismatch_rejects_witness :
    validateInput { title := JVal.undef, pixels := JVal.arr [] }
      = { valid := false, error := some "pixels must have 16 items" } :=
  pixels_count_mismatch_rejects _ [] (Or.inl rfl) rfl (by decide)

/-- C5: a non-empty title of length at most 5 containing a moderation word
as a substring is rejected with "inappropriate title"; an absent or empty
title can never be rejected for moderation. -/
theorem moderated_title_rejects
    (body : JBody) (s : String)
    (ht : body.title = JVal.str s) (hne : s ≠ "") (hle : s.length ≤ MAX_TITLE_LENGTH)
    (hng : ∃ ng ∈ NG_WORDS, jsIncludes s ng = true) :
    validateInput body = { valid := false, error := some "inappropriate title" }
  ∧ ∀ body' : JBody, body'.title = JVal.undef ∨ body'.title = JVal.str "" →
      (validateInput body').error ≠ some "inappropriate title" := by
  constructor
  · have h1 : ¬ (s.length > MAX_TITLE_LENGTH) := by omega
    have h2 : (NG_WORDS.any fun ng => jsIncludes s ng) = true := by
      simp only [List.any_eq_true]
      exact hng
    simp [validateInput, ht, hne, h1, h2, JVal.isUndefined, JVal.isStringJ,
      JVal.truthy, JVal.strVal]
  · intro body' h'
    rcases h' with h' | h' <;>
      · simp only [validateInput, h', JVal.isUndefined, JVal.isStringJ, JVal.truthy]
        repeat' split
        all_goals first | decide | simp_all

theorem moderated_title_rejects_witness :
    validateInput { title := JVal.str "しね", pixels := JVal.undef }
      = { valid := false, error := some "inappropriate title" } :=
  (moderated_title_rejects _ "しね" rfl (by decide) (by decide)
    ⟨"しね", by decide, by decide⟩).1

/-- Bridge: the `isAllowed` predicate inside `corsHeaders` holds exactly
when the origin is listed verbatim or the wildcard is listed. -/
theorem isAllowed_iff (origin : String) (l : List String) :
    ((l.any fun o => o == origin || o == "*") = true) ↔ (origin ∈ l ∨ "*" ∈ l) := by
  simp only [List.any_eq_true, Bool.or_eq_true, beq_iff_eq]
  constructor
  · rintro ⟨o, hmem, h | h⟩
    · exact Or.inl (h ▸ hmem)
    · exact Or.inr (h ▸ hmem)
  · rintro (h | h)
    · exact ⟨origin, h, Or.inl rfl⟩
    · exact ⟨"*", h, Or.inr rfl⟩

/-- C6 counterexample: with the empty request origin (absent Origin header)
and a non-empty allow-list, the computed header equals the origin even
though the origin is neither listed nor wildcarded — the claimed "if and
only if" fails in the only-if direction. -/
theorem cors_echo_iff_counterexample :
    (corsHeaders "" (parseAllowedOrigins (some "https://a.example"))).allowOrigin = "" ∧
    ("" : String) ∉ parseAllowedOrigins (some "https://a.example") ∧
    ("*" : String) ∉ parseAllowedOrigins (some "https://a.example") := by
  decide

/-- C6 (amended): the computed Access-Control-Allow-Origin header is the
request origin when that origin is listed verbatim or the wildcard is
listed, and the empty string otherwise; for every non-empty origin the
header equals the origin exactly when the origin is allowed. -/
theorem cors_allow_origin_amended (origin : String) (cfg : Option String) :
    ((corsHeaders origin (parseAllowedOrigins cfg)).allowOrigin
      = if origin ∈ parseAllowedOrigins cfg ∨ "*" ∈ parseAllowedOrigins cfg
        then origin else "") ∧
    (origin ≠ "" →
      ((corsHeaders origin (parseAllowedOrigins cfg)).allowOrigin = origin
        ↔ (origin ∈ parseAllowedOrigins cfg ∨ "*" ∈ parseAllowedOrigins cfg))) := by
  have hiff := isAllowed_iff origin (parseAllowedOrigins cfg)
  have hmain : (corsHeaders origin (parseAllowedOrigins cfg)).allowOrigin
      = if origin ∈ parseAllowedOrigins cfg ∨ "*" ∈ parseAllowedOrigins cfg
        then origin else "" := by
    by_cases h : origin ∈ parseAllowedOrigins cfg ∨ "*" ∈ parseAllowedOrigins cfg
    · simp [corsHeaders, hiff.mpr h, h]
    · have hany : ((parseAllowedOrigins cfg).any fun o => o == origin || o == "*") = false := by
        cases hc : (parseAllowedOrigins cfg).any fun o => o == origin || o == "*"
        · rfl
        · exact absurd (hiff.mp hc) h
      simp [corsHeaders, hany, h]
  refine ⟨hmain, fun hne => ?_⟩
  rw [hmain]
  by_cases h : origin ∈ parseAllowedOrigins cfg ∨ "*" ∈ parseAllowedOrigins cfg
  · simp [h]
  · simp [h]
    exact fun heq => hne heq.symm

theorem cors_allow_origin_amended_witness :
    ("https://a.example" : String) ≠ "" ∧
    ((corsHeaders "https://a.example"
        (parseAllowedOrigins (some "https://a.example"))).allowOrigin
      = "https://a.example"
      ↔ ("https://a.example" ∈ parseAllowedOrigins (some "https://a.example")
         ∨ "*" ∈ parseAllowedOrigins (some "https://a.example"))) :=
  ⟨by decide,
   (cors_allow_origin_amended "https://a.example" (some "https://a.example")).2 (by decide)⟩

/-- C8: when the pipeline reaches the upstream call and the upstream fails
— a thrown transport error or a non-2xx status — the caller sees a 500 with
one of the two fixed generic messages, and the response is independent of
the upstream response's body and status detail (no leak). -/
theorem upstream_failure_maps_to_generic_500
    (request : WRequest) (env : WEnv) (rateLimit : String → Bool)
    (upstream : Except Unit UpstreamResponse) (body : JBody)
    (hm : request.method = "POST") (hp : request.pathname = "/exchange")
    (ho : originCheckPasses (request.originHeader.getD "")
            (parseAllowedOrigins env.ALLOWED_ORIGINS))
    (hr : rateLimit (request.ipHeader.getD "unknown") = true)
    (hb : request.bodyJson = some body)
    (hv : (validateInput body).valid = true)
    (hfail : upstream = .error () ∨ ∃ r, upstream = .ok r ∧ r.ok = false) :
    (workerFetch request env rateLimit upstream).1.status = 500 ∧
    ((workerFetch request env rateLimit upstream).1.body
        = some (jsonErrorBody "internal error") ∨
     (workerFetch request env rateLimit upstream).1.body
        = some (jsonErrorBody "Internal server error")) ∧
    (∀ r r' : UpstreamResponse, r.ok = false → r'.ok = false →
      workerFetch request env rateLimit (.ok r)
        = workerFetch request env rateLimit (.ok r')) := by
  refine ⟨?_, ?_, ?_⟩
  · rcases hfail with hu | ⟨r, hu, hok⟩
    · rcases ho with h | h | h <;>
        simp [workerFetch, hm, hp, hr, hb, hv, hu, createErrorResponse, h]
    · rcases ho with h | h | h <;>
        simp [workerFetch, hm, hp, hr, hb, hv, hu, hok, createErrorResponse, h]
  · rcases hfail with hu | ⟨r, hu, hok⟩
    · right
      rcases ho with h | h | h <;>
        simp [workerFetch, hm, hp, hr, hb, hv, hu, createErrorResponse, h]
    · left
      rcases ho with h | h | h <;>
        simp [workerFetch, hm, hp, hr, hb, hv, hu, hok, createErrorResponse, h]
  · intro r r' hok hok'
    rcases ho with h | h | h <;>
      simp [workerFetch, hm, hp, hr, hb, hv, hok, hok', createErrorResponse, h]

theorem upstream_failure_maps_to_generic_500_witness :
    (workerFetch ⟨"POST", "/exchange", some "https://a.example", some "1.2.3.4",
        some ⟨JVal.undef, JVal.arr (List.replicate 16 (JVal.str "#aabbcc"))⟩⟩
      ⟨some "https://a.example"⟩ (fun _ => true)
      (.ok ⟨500, "upstream detail text"⟩)).1.status = 500 :=
  (upstream_failure_maps_to_generic_500
    ⟨"POST", "/exchange", some "https://a.example", some "1.2.3.4",
      some ⟨JVal.undef, JVal.arr (List.replicate 16 (JVal.str "#aabbcc"))⟩⟩
    ⟨some "https://a.example"⟩ (fun _ => true) (.ok ⟨500, "upstream detail text"⟩)
    ⟨JVal.undef, JVal.arr (List.replicate 16 (JVal.str "#aabbcc"))⟩ rfl rfl
    (Or.inr (Or.inl (by decide))) rfl rfl (by decide)
    (Or.inr ⟨⟨500, "upstream detail text"⟩, rfl, by decide⟩)).1

/-- C9: when the pipeline reaches the upstream call and the upstream
succeeds (2xx), the caller receives the upstream body and status unchanged,
with only the CORS header block and a Content-Type header attached. -/
theorem upstream_success_passthrough
    (request : WRequest) (env : WEnv) (rateLimit : String → Bool)
    (upstream : Except Unit UpstreamResponse) (body : JBody)
    (hm : request.method = "POST") (hp : request.pathname = "/exchange")
    (ho : originCheckPasses (request.originHeader.getD "")
            (parseAllowedOrigins env.ALLOWED_ORIGINS))
    (hr : rateLimit (request.ipHeader.getD "unknown") = true)
    (hb : request.bodyJson = some body)
    (hv : (validateInput body).valid = true)
    (r : UpstreamResponse) (hu : upstream = .ok r) (hok : r.ok = true) :
    (workerFetch request env rateLimit upstream).1
      = { status := r.status, body := some r.body,
          headers := { cors := corsHeaders (request.originHeader.getD "")
                         (parseAllowedOrigins env.ALLOWED_ORIGINS),
                       contentType := some "application/json" } } ∧
    (workerFetch request env rateLimit upstream).2.upstreamCalled = true := by
  rcases ho with h | h | h <;>
    simp [workerFetch, hm, hp, hr, hb, hv, hu, hok, h]

theorem upstream_success_passthrough_witness :
    (workerFetch ⟨"POST", "/exchange", some "https://a.example", some "1.2.3.4",
        some ⟨JVal.str "こんにちは", JVal.arr (List.replicate 16 (JVal.str "#aabbcc"))⟩⟩
      ⟨some "https://a.example"⟩ (fun _ => true) (.ok ⟨200, "null"⟩)).1
      = { status := 200, body := some "null",
          headers := { cors := ⟨"https://a.example", "POST, OPTIONS",
                         "Content-Type", "86400"⟩,
                       contentType := some "application/json" } } := by
  have h := (upstream_success_passthrough
    ⟨"POST", "/exchange", some "https://a.example", some "1.2.3.4",
      some ⟨JVal.str "こんにちは", JVal.arr (List.replicate 16 (JVal.str "#aabbcc"))⟩⟩
    ⟨some "https://a.example"⟩ (fun _ => true) (.ok ⟨200, "null"⟩)
    ⟨JVal.str "こんにちは", JVal.arr (List.replicate 16 (JVal.str "#aabbcc"))⟩ rfl rfl
    (Or.inr (Or.inl (by decide))) rfl rfl (by decide) ⟨200, "null"⟩ rfl (by decide)).1
  rw [h]; decide

/-- C10: an invalid `validateInput` result always carries one of the six
specific non-empty reasons, so the pipeline's `|| "Invalid input"` fallback
never takes effect. -/
theorem invalid_input_has_specific_reason (body : JBody)
    (h : (validateInput body).valid = false) :
    ∃ e, (validateInput body).error = some e ∧ e ≠ "" ∧ e ∈ validationReasons ∧
      jsOrElse (validateInput body).error "Invalid input" = e := by
  revert h
  simp only [validateInput]
  repeat' split
  all_goals intro h
  all_goals first
    | exact absurd h (by decide)
    | exact ⟨_, rfl, by decide, by decide, by decide⟩

theorem invalid_input_has_specific_reason_witness :
    ∃ e, (validateInput { title := JVal.undef, pixels := JVal.undef }).error
        = some e ∧ e ≠ "" ∧ e ∈ validationReasons ∧
      jsOrElse (validateInput { title := JVal.undef, pixels := JVal.undef }).error
        "Invalid input" = e :=
  invalid_input_has_specific_reason ⟨JVal.undef, JVal.undef⟩ (by decide)

end PixelProxy
